import Mathlib

/-!
Verification of the stockcharts pipeline against its design specification.

The development shallowly embeds the Python sources:
* `src/utils.py` — the `retry` / `async_retry` decorators (bounded retry with
  exponential backoff);
* `src/claude_analysis.py` — response parsing (`_parse_response`) and the
  batch analysis fan-out (`analyze_batch`);
* `src/chart_capture.py` — the merge step of `ChartCapture.capture`;
* `src/main.py` — the four-phase orchestration `run_analysis_async` and the
  exit-code logic of `main`.

Exceptions are modelled with `Except`, Python dicts (which preserve insertion
order) with association lists, float delays with rationals, and the
cooperative-concurrency semaphore with an explicit transition system.
-/

namespace StockCharts

/-! ## Retry model (src/utils.py, lines 66-149)

The Python loop is

  for attempt in range(max_attempts):
      try: return func(...)
      except exceptions as e:
          last_exception = e
          if attempt < max_attempts - 1:
              time.sleep(current_delay); current_delay *= backoff
  raise last_exception

We track the number of invocations of the wrapped operation and the total
time slept.  The operation is an attempt-indexed `Except` computation; an
attempt either returns a value or raises an exception of type `ε`.  The
final `raise last_exception` raises `none` when the loop body never ran
(Python raises its `None` sentinel, i.e. a `TypeError` that does not come
from the operation), hence the error type `Option ε`.
-/

/-- One pass of the retry loop, structurally recursing on the number of
remaining attempts.  `attempt` is the 0-based index of the next attempt,
`currentDelay` the next backoff delay, `slept` the accumulated wait and
`last` the last observed exception.  Returns the outcome together with the
number of invocations of the operation and the total slept delay. -/
def retryAux {ε α : Type} (op : Nat → Except ε α) (backoff : ℚ) :
    Nat → Nat → ℚ → ℚ → Option ε → Except (Option ε) α × Nat × ℚ
  | 0, attempt, _, slept, last => (.error last, attempt, slept)
  | remaining + 1, attempt, currentDelay, slept, _last =>
    match op attempt with
    | .ok a => (.ok a, attempt + 1, slept)
    | .error e =>
      if remaining = 0 then
        retryAux op backoff remaining (attempt + 1) currentDelay slept (some e)
      else
        retryAux op backoff remaining (attempt + 1) (currentDelay * backoff)
          (slept + currentDelay) (some e)

/-- Model of the `retry` decorator of src/utils.py, lines 66-106.  Python's
`range(max_attempts)` is empty for a non-positive bound, which `Int.toNat`
captures. -/
def retry {ε α : Type} (max_attempts : Int) (delay backoff : ℚ)
    (op : Nat → Except ε α) : Except (Option ε) α × Nat × ℚ :=
  retryAux op backoff max_attempts.toNat 0 delay 0 none

/-- Model of the `async_retry` decorator of src/utils.py, lines 109-149; its
body is line-for-line the same loop as `retry` with `asyncio.sleep` in place
of `time.sleep`. -/
def async_retry {ε α : Type} (max_attempts : Int) (delay backoff : ℚ)
    (op : Nat → Except ε α) : Except (Option ε) α × Nat × ℚ :=
  retryAux op backoff max_attempts.toNat 0 delay 0 none

/-! ## Data model (src/claude_analysis.py) -/

/-- An artifact set: Python dict from chart kind (`daily`, `weekly`,
`pnf_daily`, `pnf_weekly`) to a file path, modelled as an insertion-ordered
association list. -/
abbrev Artifacts := List (String × String)

/-- The `AnalysisResult` dataclass of src/claude_analysis.py, lines 122-138.
Dict-shaped fields (`rsi`, `recommendation`, the pattern entries) are
association lists; price levels are integers for decidability. -/
structure AnalysisResult where
  symbol : String
  analysis_date : String
  primary_trend : String
  secondary_trend : String
  patterns_identified : List (List (String × String))
  support_levels : List Int
  resistance_levels : List Int
  volume_assessment : String
  rsi : List (String × String)
  recommendation : List (String × String)
  key_observations : List String
  summary : String
  raw_response : String
deriving DecidableEq

/-- The typed fields that `json.loads` can deliver to `_parse_response`
(each `data.get(key, default)` call of lines 181-192); a missing key is
`none`. -/
structure ParsedData where
  symbol : Option String
  analysis_date : Option String
  primary_trend : Option String
  secondary_trend : Option String
  patterns_identified : Option (List (List (String × String)))
  support_levels : Option (List Int)
  resistance_levels : Option (List Int)
  volume_assessment : Option String
  rsi : Option (List (String × String))
  recommendation : Option (List (String × String))
  key_observations : Option (List String)
  summary : Option String

/-- The regex search of src/claude_analysis.py line 176: a leftmost greedy
match of an opening brace followed (arbitrarily far) by a closing brace.
The match spans from the first opening brace to the last closing brace of
the text, provided the latter comes after the former. -/
def extract_json (s : String) : Option String :=
  let cs := s.data
  match cs.findIdx? (fun c => c == '{'), cs.reverse.findIdx? (fun c => c == '}') with
  | some i, some jr =>
    let j := cs.length - 1 - jr
    if i < j then some (String.mk ((cs.drop i).take (j - i + 1))) else none
  | _, _ => none

/-- The fallback `AnalysisResult` of src/claude_analysis.py, lines 199-213:
neutral classification fields, a HOLD/LOW recommendation and the raw
response text (truncated to 500 characters) as the summary. -/
def fallback_result (symbol response_text : String) : AnalysisResult :=
  { symbol := symbol
    analysis_date := ""
    primary_trend := "UNKNOWN"
    secondary_trend := "UNKNOWN"
    patterns_identified := []
    support_levels := []
    resistance_levels := []
    volume_assessment := "UNKNOWN"
    rsi := []
    recommendation :=
      [("signal", "HOLD"), ("confidence", "LOW"), ("reasoning", "Unable to parse analysis")]
    key_observations := []
    summary :=
      if 500 < response_text.length then String.mk (response_text.data.take 500)
      else response_text
    raw_response := response_text }

/-- Model of `ClaudeAnalyzer._parse_response` (src/claude_analysis.py, lines
164-213).  `jsonLoads` stands for Python's `json.loads`; `none` is a
`JSONDecodeError`, which the source catches before taking the fallback
path. -/
def ClaudeAnalyzer.parse_response (jsonLoads : String → Option ParsedData)
    (response_text symbol : String) : AnalysisResult :=
  match extract_json response_text with
  | some js =>
    match jsonLoads js with
    | some data =>
      { symbol := data.symbol.getD symbol
        analysis_date := data.analysis_date.getD ""
        primary_trend := data.primary_trend.getD "NEUTRAL"
        secondary_trend := data.secondary_trend.getD "NEUTRAL"
        patterns_identified := data.patterns_identified.getD []
        support_levels := data.support_levels.getD []
        resistance_levels := data.resistance_levels.getD []
        volume_assessment := data.volume_assessment.getD "NEUTRAL"
        rsi := data.rsi.getD []
        recommendation := data.recommendation.getD []
        key_observations := data.key_observations.getD []
        summary := data.summary.getD ""
        raw_response := response_text }
    | none => fallback_result symbol response_text
  | none => fallback_result symbol response_text

/-- The hypothesis of the degraded-parse property: the response text holds
no parseable JSON object, i.e. either the brace regex finds no match, or the
matched span fails `json.loads`. -/
def noParsableJson (jsonLoads : String → Option ParsedData) (response_text : String) : Prop :=
  match extract_json response_text with
  | none => True
  | some js => jsonLoads js = none

/-! ## Batch analysis (src/claude_analysis.py, lines 319-355)

`analyze_batch` launches one task per dict entry, gathers them with
`return_exceptions=True` (so `results` is in task order, which is the dict's
insertion order), and then keeps the non-exception results in that order. -/

/-- The collection loop at the end of `analyze_batch` (lines 348-354):
exceptions are logged and dropped, successes appended in order. -/
def collect_valid {ε : Type} : List (Except ε AnalysisResult) → List AnalysisResult
  | [] => []
  | .ok r :: rest => r :: collect_valid rest
  | .error _ :: rest => collect_valid rest

/-- Model of `ClaudeAnalyzer.analyze_batch`.  The per-symbol `analyze` call
(which includes its own `async_retry` wrapper in the source) is a parameter;
`asyncio.gather` returns the task outcomes in submission order. -/
def analyze_batch {ε : Type} (analyze : String → Artifacts → Except ε AnalysisResult)
    (all_image_paths : List (String × Artifacts)) : List AnalysisResult :=
  collect_valid (all_image_paths.map (fun p => analyze p.1 p.2))

/-! ## Capture merge (src/chart_capture.py, lines 529-544)

`ChartCapture.capture` gathers the candlestick and P&F sub-captures with
`return_exceptions=True` and merges the dict results, logging and dropping
exceptions.  In particular, when every sub-capture fails (or saves nothing)
the merged artifact set is empty and `capture` returns it without raising. -/

/-- The merge loop of `ChartCapture.capture`, lines 536-544. -/
def ChartCapture.capture_merge {ε : Type} (results : List (Except ε Artifacts)) : Artifacts :=
  results.foldl
    (fun merged r =>
      match r with
      | .ok d => merged ++ d
      | .error _ => merged)
    []

/-! ## Pipeline orchestration (src/main.py, lines 82-205) -/

/-- Which required credentials are present in the environment:
`ANTHROPIC_API_KEY` (checked in `ClaudeAnalyzer.__init__`,
src/claude_analysis.py line 156) and `GMAIL_ADDRESS` / `GMAIL_APP_PASSWORD`
(checked in `EmailSender.__init__`, src/email_sender.py line 35). -/
structure Env where
  anthropicKey : Bool
  gmailCreds : Bool

/-- A missing-credential failure raised by `ensure_env_vars`
(src/utils.py, lines 159-188). -/
inductive CredErr where
  | anthropicKeyMissing
  | gmailCredsMissing
deriving DecidableEq

/-- Observable record of a run: which symbols had their capture job run,
the mapping handed to `analyze_batch` (empty if the phase was skipped), the
accumulated `errors` list, and whether Phase 4 wrote the results JSON
file. -/
structure RunLog (ε : Type) where
  captured : List String
  analyzedInput : List (String × Artifacts)
  errors : List (String × ε)
  jsonWritten : Bool
deriving DecidableEq

/-- Model of `run_analysis_async` (src/main.py, lines 82-205).

* `ClaudeAnalyzer(config)` is constructed before Phase 1 when not in dry-run
  mode (line 109) and raises there if `ANTHROPIC_API_KEY` is absent.
* Phase 1 runs `process_ticker` for every ticker; a capture exception is
  caught per symbol and recorded in `errors`, a success is stored in the
  `screenshots` dict (lines 117-144). `asyncio.gather` keeps input order.
* Phase 2 calls `analyze_batch(screenshots, ...)` when not dry-run and the
  `screenshots` dict is non-empty as a whole (lines 146-150).
* Phase 3 constructs `EmailSender(config)` — which raises if the Gmail
  credentials are absent — only when an email is wanted and there are
  results (lines 161-162); a `send_report` failure is caught and appended
  to `errors` as `("email", e)` (lines 163-167).
* Phase 4 writes the results JSON only under `if results:` (line 170). -/
def run_analysis_async {ε : Type} (env : Env) (tickers : List String)
    (send_email dry_run : Bool)
    (capture : String → Except ε Artifacts)
    (analyze : String → Artifacts → Except ε AnalysisResult)
    (send_report : List AnalysisResult → Except ε Unit) :
    Except CredErr (List AnalysisResult × List (String × Artifacts)) × RunLog ε :=
  if !dry_run && !env.anthropicKey then
    (.error .anthropicKeyMissing,
     { captured := [], analyzedInput := [], errors := [], jsonWritten := false })
  else
    let captureResults := tickers.map fun symbol => (symbol, capture symbol)
    let screenshots := captureResults.filterMap fun p =>
      match p.2 with
      | .ok paths => some (p.1, paths)
      | .error _ => none
    let captureErrors := captureResults.filterMap fun p =>
      match p.2 with
      | .ok _ => none
      | .error e => some (p.1, e)
    let results :=
      if !dry_run && !screenshots.isEmpty then analyze_batch analyze screenshots else []
    let analyzedInput :=
      if !dry_run && !screenshots.isEmpty then screenshots else []
    if send_email && !dry_run && !results.isEmpty && !env.gmailCreds then
      (.error .gmailCredsMissing,
       { captured := tickers, analyzedInput := analyzedInput, errors := captureErrors,
         jsonWritten := false })
    else
      let errors :=
        if send_email && !dry_run && !results.isEmpty then
          match send_report results with
          | .ok _ => captureErrors
          | .error e => captureErrors ++ [("email", e)]
        else captureErrors
      (.ok (results, screenshots),
       { captured := tickers, analyzedInput := analyzedInput, errors := errors,
         jsonWritten := !results.isEmpty })

/-! ## Exit codes (src/main.py, lines 208-289) -/

/-- How the `asyncio.run(run_analysis_async(...))` call in `main` can
terminate abnormally. -/
inductive RunExc where
  | interrupt
  | fatal
deriving DecidableEq

/-- The exit-code logic of `main` (src/main.py, lines 240-289): `1` when the
ticker list is empty (line 242), otherwise `0` when the run returns (line
281), `130` on `KeyboardInterrupt` (line 285), `1` on any other exception
(line 289). -/
def main_exit (tickers : List String)
    (run_outcome : Except RunExc (List AnalysisResult × List (String × Artifacts))) : Int :=
  if tickers.isEmpty then 1
  else
    match run_outcome with
    | .ok _ => 0
    | .error .interrupt => 130
    | .error .fatal => 1

/-! ## Concurrency limiter (asyncio.Semaphore, src/main.py lines 115-134 and
src/claude_analysis.py lines 334-345)

Cooperative single-threaded scheduling with suspension at permit
acquisition: each of the `N` capture jobs is queued until it acquires a
permit (only possible while a permit is free), then performs its capture
work while holding the permit, then releases it — the `async with semaphore`
block of `process_ticker`. -/

/-- The phase of one capture job relative to the semaphore. -/
inductive JobPhase where
  | queued
  | running (workLeft : Nat)
  | finished
deriving DecidableEq

/-- Whether a job currently holds a permit. -/
def JobPhase.isRunning : JobPhase → Bool
  | .running _ => true
  | _ => false

/-- Global scheduler state: free permits of the semaphore plus the phase of
every job. -/
structure SemState where
  permits : Nat
  jobs : List JobPhase
deriving DecidableEq

/-- Number of jobs simultaneously holding a permit. -/
def SemState.runningCount (s : SemState) : Nat :=
  s.jobs.countP JobPhase.isRunning

/-- Initial state: `asyncio.Semaphore(K)` with `N` queued jobs
(src/main.py line 115 with `K = max_concurrent_tickers`). -/
def SemState.start (K N : Nat) : SemState :=
  { permits := K, jobs := List.replicate N .queued }

/-- One cooperative scheduling step: a queued job acquires a permit (only
when one is free), a running job performs a unit of capture work, or a
running job that finished its work releases its permit. -/
inductive SemStep : SemState → SemState → Prop where
  | acquire (s : SemState) (i w : Nat)
      (hq : s.jobs.get? i = some .queued) (hp : 0 < s.permits) :
      SemStep s { permits := s.permits - 1, jobs := s.jobs.set i (.running w) }
  | work (s : SemState) (i k : Nat)
      (hr : s.jobs.get? i = some (.running (k + 1))) :
      SemStep s { permits := s.permits, jobs := s.jobs.set i (.running k) }
  | release (s : SemState) (i : Nat)
      (hr : s.jobs.get? i = some (.running 0)) :
      SemStep s { permits := s.permits + 1, jobs := s.jobs.set i .finished }

/-- States reachable by the scheduler from the initial state with `K`
permits and `N` jobs. -/
inductive SemReachable (K N : Nat) : SemState → Prop where
  | start : SemReachable K N (SemState.start K N)
  | step {s s' : SemState} : SemReachable K N s → SemStep s s' → SemReachable K N s'

/-! ## Concrete run scenarios used as test vectors -/

/-- The full four-artifact set for a symbol, with the `{symbol}_{variant}.png`
naming of src/chart_capture.py (lines 463, 473, 496, 501). -/
def full_chart_set (symbol : String) : Artifacts :=
  [("daily", symbol ++ "_daily.png"), ("weekly", symbol ++ "_weekly.png"),
   ("pnf_daily", symbol ++ "_pnf_daily.png"), ("pnf_weekly", symbol ++ "_pnf_weekly.png")]

/-- A fixed well-formed analysis result for a symbol. -/
def sample_result (symbol : String) : AnalysisResult :=
  { symbol := symbol
    analysis_date := "2026-10-12"
    primary_trend := "BULLISH"
    secondary_trend := "NEUTRAL"
    patterns_identified := [[("pattern", "Ascending Triangle"), ("type", "CONTINUATION")]]
    support_levels := [100, 95]
    resistance_levels := [110]
    volume_assessment := "CONFIRMING"
    rsi := [("zone", "NEUTRAL")]
    recommendation := [("signal", "BUY"), ("confidence", "HIGH"), ("reasoning", "breakout")]
    key_observations := ["strong volume"]
    summary := "buy the breakout"
    raw_response := "raw"
  }

/-- Capture behaviour of the three-symbol scenario: BBB's session call fails
every attempt of its `async_retry(max_attempts=3)` wrapper (attempt `i`
raises the retryable error `i`), AAA and CCC succeed with full artifact
sets. -/
def scenarioC2_capture (s : String) : Except (Option Nat) Artifacts :=
  if s = "BBB" then (retry 3 2 2 (fun i => (.error i : Except Nat Artifacts))).1
  else .ok (full_chart_set s)

/-- The end-to-end three-symbol run: AAA and CCC succeed, BBB exhausts its
retries. -/
def scenarioC2_run :
    Except CredErr (List AnalysisResult × List (String × Artifacts)) × RunLog (Option Nat) :=
  run_analysis_async { anthropicKey := true, gmailCreds := true } ["AAA", "BBB", "CCC"]
    false false scenarioC2_capture (fun s _ => .ok (sample_result s)) (fun _ => .ok ())

/-- A run that executes (capture succeeds) but produces zero successful
analyses: every analysis call fails. -/
def scenarioC1_run :
    Except CredErr (List AnalysisResult × List (String × Artifacts)) × RunLog Unit :=
  run_analysis_async { anthropicKey := true, gmailCreds := true } ["AAA"]
    true false (fun s => .ok (full_chart_set s)) (fun _ _ => .error ()) (fun _ => .ok ())

/-- A run in which AAA's capture does not raise but saves nothing: both
sub-captures fail, so `ChartCapture.capture` merges two exceptions into an
empty artifact set and returns it. -/
def scenarioC3_run :
    Except CredErr (List AnalysisResult × List (String × Artifacts)) × RunLog Unit :=
  run_analysis_async { anthropicKey := true, gmailCreds := true } ["AAA"]
    false false (fun _ => .ok (ChartCapture.capture_merge [.error (), .error ()]))
    (fun s _ => .ok (sample_result s)) (fun _ => .ok ())

/-- A run with the analysis-service credential present but the
report-delivery (Gmail) credentials absent; capture and analysis succeed. -/
def scenarioC6_run :
    Except CredErr (List AnalysisResult × List (String × Artifacts)) × RunLog Unit :=
  run_analysis_async { anthropicKey := true, gmailCreds := false } ["AAA"]
    true false (fun s => .ok (full_chart_set s))
    (fun s _ => .ok (sample_result s)) (fun _ => .ok ())

/-! ## Theorems -/

/-- On an operation that raises on every attempt, the retry loop with
`n + 1` remaining attempts performs them all, ends with the error of the
final attempt, and sleeps `cur`, `cur * backoff`, ...,
`cur * backoff ^ (n - 1)` between consecutive attempts. -/
theorem retryAux_always_fails {ε α : Type} (errs : Nat → ε) (backoff : ℚ) :
    ∀ (n attempt : Nat) (cur slept : ℚ) (last : Option ε),
      retryAux (α := α) (fun i => .error (errs i)) backoff (n + 1) attempt cur slept last =
        (.error (some (errs (attempt + n))), attempt + n + 1,
          slept + cur * ∑ i in Finset.range n, backoff ^ i) := by
  intro n
  induction n with
  | zero =>
    intro attempt cur slept last
    simp [retryAux]
  | succ m ih =>
    intro attempt cur slept last
    rw [show retryAux (α := α) (fun i => .error (errs i)) backoff (m + 1 + 1)
          attempt cur slept last =
        retryAux (fun i => .error (errs i)) backoff (m + 1) (attempt + 1)
          (cur * backoff) (slept + cur) (some (errs attempt)) from by
      simp [retryAux]]
    rw [ih]
    refine Prod.ext ?_ (Prod.ext ?_ ?_)
    · have h1 : attempt + 1 + m = attempt + (m + 1) := by omega
      simp [h1]
    · simp; omega
    · simp only [geom_sum_succ]
      ring

/-- C4: for every `maxAttempts = M ≥ 1`, the retry wrapper (synchronous and
asynchronous alike) applied to an operation that raises a retryable error on
every attempt invokes the operation exactly `M` times, re-raises exactly the
exception observed on the `M`-th attempt (index `M - 1`, unwrapped), and its
total waited delay equals — hence is at least —
`initialDelay * (backoffMultiplier^0 + ... + backoffMultiplier^(M-2))`. -/
theorem retry_exhausts_attempts {ε α : Type} (M : Int) (hM : 1 ≤ M)
    (delay backoff : ℚ) (errs : Nat → ε) :
    retry (α := α) M delay backoff (fun i => .error (errs i)) =
      (.error (some (errs (M.toNat - 1))), M.toNat,
        delay * ∑ i in Finset.range (M.toNat - 1), backoff ^ i) ∧
    async_retry (α := α) M delay backoff (fun i => .error (errs i)) =
      (.error (some (errs (M.toNat - 1))), M.toNat,
        delay * ∑ i in Finset.range (M.toNat - 1), backoff ^ i) ∧
    delay * ∑ i in Finset.range (M.toNat - 1), backoff ^ i ≤
      (retry (α := α) M delay backoff (fun i => .error (errs i))).2.2 := by
  have hpos : 0 < M.toNat := by omega
  obtain ⟨n, hn⟩ : ∃ n, M.toNat = n + 1 := ⟨M.toNat - 1, by omega⟩
  have key : retry (α := α) M delay backoff (fun i => .error (errs i)) =
      (.error (some (errs (M.toNat - 1))), M.toNat,
        delay * ∑ i in Finset.range (M.toNat - 1), backoff ^ i) := by
    rw [retry, hn, retryAux_always_fails]
    simp
  refine ⟨key, ?_, ?_⟩
  · rw [async_retry, ← retry, key]
  · rw [key]

/-- Witness for C4 at `M = 3`, `delay = 1`, `backoff = 2`: three attempts,
the error of attempt index 2 is re-raised, and the waits are `1 + 2 = 3`. -/
theorem retry_exhausts_attempts_witness :
    (1 : Int) ≤ 3 ∧
      retry (α := Unit) 3 1 2 (fun i => (.error i : Except Nat Unit)) =
        (.error (some 2), 3, 3) := by
  have h := (retry_exhausts_attempts (α := Unit) 3 (by norm_num) 1 2 (fun i => i)).1
  refine ⟨by norm_num, ?_⟩
  rw [h]
  norm_num [Finset.sum_range_succ]
  refine ⟨by simp, ?_⟩
  rw [show Int.toNat 3 - 1 = 2 from by simp]
  norm_num [Finset.sum_range_succ]

/-- C9: calling a `retry`- or `async_retry`-wrapped operation with
`max_attempts ≤ 0` never invokes the wrapped operation (zero invocations,
and the outcome does not depend on the operation at all) and re-raises the
wrapper's `None` sentinel — an error that does not originate from the
operation. -/
theorem retry_nonpositive_attempts {ε α : Type} (M : Int) (hM : M ≤ 0)
    (delay backoff : ℚ) (op : Nat → Except ε α) :
    retry M delay backoff op = (.error none, 0, 0) ∧
    async_retry M delay backoff op = (.error none, 0, 0) := by
  have h0 : M.toNat = 0 := by omega
  constructor <;> simp [retry, async_retry, h0, retryAux]

/-- Witness for C9 at `max_attempts = -1` on an operation that would succeed
immediately if it were ever invoked. -/
theorem retry_nonpositive_attempts_witness :
    (-1 : Int) ≤ 0 ∧
      retry (-1) 1 2 (fun i => (.ok i : Except Unit Nat)) = (.error none, 0, 0) :=
  ⟨by norm_num,
   (retry_nonpositive_attempts (-1) (by norm_num) 1 2 (fun i => (.ok i : Except Unit Nat))).1⟩

/-- The fallback result carries a HOLD/LOW recommendation and a 500-character
prefix of the raw response as its summary. -/
theorem fallback_result_spec (symbol response_text : String) :
    (fallback_result symbol response_text).recommendation.lookup "signal" = some "HOLD" ∧
    (fallback_result symbol response_text).recommendation.lookup "confidence" = some "LOW" ∧
    (∃ rest, (fallback_result symbol response_text).summary.data ++ rest = response_text.data) ∧
    (response_text.length ≤ 500 → (fallback_result symbol response_text).summary = response_text) := by
  refine ⟨rfl, rfl, ?_, ?_⟩
  · unfold fallback_result
    dsimp only
    by_cases hc : 500 < response_text.length
    · rw [if_pos hc]
      exact ⟨response_text.data.drop 500, List.take_append_drop 500 response_text.data⟩
    · rw [if_neg hc]
      exact ⟨[], List.append_nil _⟩
  · intro hlen
    unfold fallback_result
    dsimp only
    rw [if_neg (by omega)]

/-- C5: for every response text holding no parseable JSON object,
`_parse_response` never raises (it is a total function here) and returns the
degraded `AnalysisResult`: recommendation signal `HOLD` with confidence
`LOW`, and a summary that is a prefix of the raw response — the full text
whenever the response is at most 500 characters long. -/
theorem parse_response_degrades (jsonLoads : String → Option ParsedData)
    (response_text symbol : String) (h : noParsableJson jsonLoads response_text) :
    ((ClaudeAnalyzer.parse_response jsonLoads response_text symbol).recommendation.lookup
        "signal" = some "HOLD") ∧
    ((ClaudeAnalyzer.parse_response jsonLoads response_text symbol).recommendation.lookup
        "confidence" = some "LOW") ∧
    (∃ rest, (ClaudeAnalyzer.parse_response jsonLoads response_text symbol).summary.data ++ rest
        = response_text.data) ∧
    (response_text.length ≤ 500 →
      (ClaudeAnalyzer.parse_response jsonLoads response_text symbol).summary = response_text) := by
  unfold noParsableJson at h
  unfold ClaudeAnalyzer.parse_response
  cases hx : extract_json response_text with
  | none =>
    exact fallback_result_spec symbol response_text
  | some js =>
    rw [hx] at h
    dsimp only at h
    dsimp only
    rw [h]
    exact fallback_result_spec symbol response_text

/-- Witness for C5 on a short brace-free response: the hypothesis holds
because the regex finds no JSON object, and the parsed result degrades to a
HOLD signal with the full raw text as summary. -/
theorem parse_response_degrades_witness :
    noParsableJson (fun _ => none) "plain prose with no structure" ∧
    ((ClaudeAnalyzer.parse_response (fun _ => none) "plain prose with no structure"
        "AAPL").recommendation.lookup "signal" = some "HOLD") ∧
    (ClaudeAnalyzer.parse_response (fun _ => none) "plain prose with no structure"
        "AAPL").summary = "plain prose with no structure" := by
  have hx : extract_json "plain prose with no structure" = none := by decide
  have hnp : noParsableJson (fun _ => (none : Option ParsedData))
      "plain prose with no structure" := by
    unfold noParsableJson
    rw [hx]
    trivial
  have hmain := parse_response_degrades (fun _ => none) "plain prose with no structure" "AAPL" hnp
  exact ⟨hnp, hmain.1, hmain.2.2.2 (by decide)⟩

/-- C10: `analyze_batch` returns exactly the successful analysis results, in
the iteration order of the keys of its input mapping — failed entries are
removed and nothing is reordered (the result is the order-preserving
`filterMap` of the per-symbol outcomes). -/
theorem analyze_batch_keeps_input_order {ε : Type}
    (analyze : String → Artifacts → Except ε AnalysisResult)
    (all_image_paths : List (String × Artifacts)) :
    analyze_batch analyze all_image_paths =
      all_image_paths.filterMap (fun p => (analyze p.1 p.2).toOption) := by
  unfold analyze_batch
  induction all_image_paths with
  | nil => rfl
  | cons hd tl ih =>
    simp only [List.map_cons, List.filterMap_cons]
    cases h : analyze hd.1 hd.2 with
    | ok r => simp [collect_valid, ih, Except.toOption]
    | error e => simp [collect_valid, ih, Except.toOption]

/-- Counterexample to C1 as stated: in `scenarioC1_run` the pipeline
executes — capture succeeds and the batch analysis runs but yields zero
successful analyses — yet the results JSON file is not written, because
Phase 4 is guarded by `if results:` (src/main.py line 170). -/
theorem results_json_skipped_counterexample :
    scenarioC1_run.1 = .ok ([], [("AAA", full_chart_set "AAA")]) ∧
    scenarioC1_run.2.analyzedInput = [("AAA", full_chart_set "AAA")] ∧
    scenarioC1_run.2.jsonWritten = false := by
  refine ⟨rfl, rfl, rfl⟩

/-- C1 (amended): the persisted JSON results file is written exactly when
the run completes with a non-empty results sequence; a run with zero
successful analyses skips the write. -/
theorem results_json_written_iff {ε : Type} (env : Env) (tickers : List String)
    (send_email dry_run : Bool) (capture : String → Except ε Artifacts)
    (analyze : String → Artifacts → Except ε AnalysisResult)
    (send_report : List AnalysisResult → Except ε Unit) :
    (run_analysis_async env tickers send_email dry_run capture analyze send_report).2.jsonWritten =
      (match (run_analysis_async env tickers send_email dry_run capture analyze
          send_report).1 with
       | .ok (results, _) => !results.isEmpty
       | .error _ => false) := by
  unfold run_analysis_async
  dsimp only
  split
  · rfl
  · split <;> split <;> rfl

/-- Counterexample to C2 as stated: in the three-symbol scenario the run
succeeds, but the final artifacts mapping has no entry at all for the failed
symbol BBB (its lookup yields `none`), rather than an entry with an empty
artifact set — a capture failure is recorded only in `errors`
(src/main.py lines 140-144). -/
theorem scenario_three_symbols_counterexample :
    scenarioC2_run.1.toOption.map (fun p => p.2.lookup "BBB") = some none := by
  rfl

/-- C2 (amended): with symbols AAA, BBB, CCC where BBB's capture exhausts
its three retry attempts (re-raising the error of the last attempt) and AAA
and CCC succeed with full 4-artifact sets, the run yields
`errors = [("BBB", error-of-attempt-2)]`, analysis results only for AAA and
CCC, and an artifacts mapping containing only AAA and CCC — BBB is absent
from it. -/
theorem scenario_three_symbols :
    scenarioC2_run =
      (.ok ([sample_result "AAA", sample_result "CCC"],
            [("AAA", full_chart_set "AAA"), ("CCC", full_chart_set "CCC")]),
       { captured := ["AAA", "BBB", "CCC"],
         analyzedInput := [("AAA", full_chart_set "AAA"), ("CCC", full_chart_set "CCC")],
         errors := [("BBB", some 2)],
         jsonWritten := true }) := by
  rfl

/-- Counterexample to C3 as stated: a symbol whose capture returns an empty
artifact set (both sub-captures failed, so `ChartCapture.capture` merges to
an empty dict without raising) is nevertheless passed to batch analysis,
because Phase 2 only checks that the `screenshots` dict as a whole is
non-empty (src/main.py line 148). -/
theorem empty_artifacts_analyzed_counterexample :
    ("AAA", ([] : Artifacts)) ∈ scenarioC3_run.2.analyzedInput ∧
    scenarioC3_run.2.analyzedInput = [("AAA", [])] := by
  refine ⟨?_, rfl⟩
  rw [show scenarioC3_run.2.analyzedInput = [("AAA", [])] from rfl]
  exact List.mem_singleton.mpr rfl

/-- C3 (amended): batch analysis receives every capture success — including
symbols whose artifact set is empty; the analysis stage is skipped only when
the screenshots mapping as a whole is empty (for a non-dry run with the
analysis credential present). -/
theorem analysis_input_is_all_capture_successes {ε : Type} (env : Env)
    (tickers : List String) (send_email : Bool) (capture : String → Except ε Artifacts)
    (analyze : String → Artifacts → Except ε AnalysisResult)
    (send_report : List AnalysisResult → Except ε Unit)
    (hkey : env.anthropicKey = true) :
    (run_analysis_async env tickers send_email false capture analyze
        send_report).2.analyzedInput =
      (let screenshots := (tickers.map fun symbol => (symbol, capture symbol)).filterMap
          fun p =>
            match p.2 with
            | .ok paths => some (p.1, paths)
            | .error _ => none
       if !screenshots.isEmpty then screenshots else []) := by
  unfold run_analysis_async
  rw [hkey]
  rw [if_neg (show ¬ ((!false && !true) = true) from by decide)]
  dsimp only
  simp only [Bool.not_false, Bool.true_and, Bool.and_true]
  repeat' split
  all_goals rfl

/-- Witness for C3 (amended) at a concrete run: one symbol whose capture
succeeds with an empty artifact set; the analysis input is that symbol with
its empty set. -/
theorem analysis_input_is_all_capture_successes_witness :
    (Env.mk true true).anthropicKey = true ∧
    (run_analysis_async (ε := Unit) (Env.mk true true) ["AAA"] false false
        (fun _ => .ok []) (fun s _ => .ok (sample_result s))
        (fun _ => .ok ())).2.analyzedInput = [("AAA", [])] :=
  ⟨rfl,
   (analysis_input_is_all_capture_successes (ε := Unit) (Env.mk true true) ["AAA"] false
      (fun _ => .ok []) (fun s _ => .ok (sample_result s)) (fun _ => .ok ()) rfl).trans rfl⟩

/-- Counterexample to C6 as stated: with the analysis-service credential
present but the report-delivery (Gmail) credentials absent, the run fails
with the credential error only after all per-ticker capture work and the
batch analysis have been performed — `EmailSender(config)` is constructed in
Phase 3 (src/main.py line 162), not at startup. -/
theorem credential_check_counterexample :
    scenarioC6_run.1 = .error .gmailCredsMissing ∧
    scenarioC6_run.2.captured = ["AAA"] ∧
    scenarioC6_run.2.analyzedInput = [("AAA", full_chart_set "AAA")] := by
  refine ⟨rfl, rfl, rfl⟩

/-- C6 (amended): for a non-dry run, absence of the analysis-service
credential is a fatal startup error — no capture or analysis work happens;
absence of the report-delivery credential is also fatal, but only surfaces
at the report phase, after every capture job has already run. -/
theorem credential_errors {ε : Type} (env : Env) (tickers : List String)
    (send_email : Bool) (capture : String → Except ε Artifacts)
    (analyze : String → Artifacts → Except ε AnalysisResult)
    (send_report : List AnalysisResult → Except ε Unit) :
    (env.anthropicKey = false →
      run_analysis_async env tickers send_email false capture analyze send_report =
        (.error .anthropicKeyMissing,
         { captured := [], analyzedInput := [], errors := [], jsonWritten := false })) ∧
    ((run_analysis_async env tickers send_email false capture analyze send_report).1 =
        .error .gmailCredsMissing →
      (run_analysis_async env tickers send_email false capture analyze
          send_report).2.captured = tickers) := by
  constructor
  · intro hkey
    unfold run_analysis_async
    rw [hkey]
    rfl
  · intro herr
    unfold run_analysis_async at herr ⊢
    dsimp only at herr ⊢
    split at herr
    · simp at herr
    · split at herr
      · split
        · simp_all
        · split
          · rfl
          · simp_all
      · simp at herr

/-- Witness for C6 (amended): a concrete run with the analysis-service
credential missing fails immediately with an empty log — no capture ran. -/
theorem credential_errors_witness :
    (Env.mk false true).anthropicKey = false ∧
    run_analysis_async (ε := Unit) (Env.mk false true) ["AAA"] true false
        (fun s => .ok (full_chart_set s)) (fun s _ => .ok (sample_result s))
        (fun _ => .ok ()) =
      (.error .anthropicKeyMissing,
       { captured := [], analyzedInput := [], errors := [], jsonWritten := false }) :=
  ⟨rfl,
   (credential_errors (ε := Unit) (Env.mk false true) ["AAA"] true
      (fun s => .ok (full_chart_set s)) (fun s _ => .ok (sample_result s))
      (fun _ => .ok ())).1 rfl⟩

/-- C7: the program exits with code 0 whenever the run completes (whatever
mix of per-ticker successes and failures it returned), 130 on user
interrupt, 1 on a fatal error, and 1 when the configured ticker list is
empty. -/
theorem main_exit_codes (tickers : List String)
    (r : List AnalysisResult × List (String × Artifacts)) (hne : tickers ≠ []) :
    main_exit tickers (.ok r) = 0 ∧
    main_exit tickers (.error .interrupt) = 130 ∧
    main_exit tickers (.error .fatal) = 1 ∧
    (∀ outcome, main_exit [] outcome = 1) := by
  have hem : tickers.isEmpty = false := by
    cases tickers with
    | nil => exact absurd rfl hne
    | cons hd tl => rfl
  refine ⟨?_, ?_, ?_, fun outcome => rfl⟩ <;> simp [main_exit, hem]

/-- Witness for C7 at a singleton ticker list (and a run result with zero
analyses, i.e. every individual ticker failed — still exit code 0). -/
theorem main_exit_codes_witness :
    (["AAA"] ≠ ([] : List String)) ∧
    main_exit ["AAA"] (.ok ([], [])) = 0 ∧
    main_exit ["AAA"] (.error .interrupt) = 130 ∧
    main_exit ["AAA"] (.error .fatal) = 1 ∧
    main_exit [] (.error .fatal) = 1 := by
  have h := main_exit_codes ["AAA"] ([], []) (by simp)
  exact ⟨by simp, h.1, h.2.1, h.2.2.1, h.2.2.2 (.error .fatal)⟩

/-- Each scheduler step preserves the permit accounting: free permits plus
permit-holding jobs stay constant. -/
theorem SemStep.preserves_accounting (K : Nat) {s t : SemState} (hstep : SemStep s t)
    (ih : s.permits + s.runningCount = K) : t.permits + t.runningCount = K := by
  cases hstep with
  | acquire i w hq hp =>
    rw [List.get?_eq_getElem?] at hq
    obtain ⟨hlen, hget⟩ := List.getElem?_eq_some.mp hq
    have hc := List.countP_set JobPhase.isRunning s.jobs i (.running w) hlen
    rw [hget] at hc
    simp [JobPhase.isRunning] at hc
    simp only [SemState.runningCount] at ih ⊢
    simp only [hc]
    omega
  | work i k hr =>
    rw [List.get?_eq_getElem?] at hr
    obtain ⟨hlen, hget⟩ := List.getElem?_eq_some.mp hr
    have hc := List.countP_set JobPhase.isRunning s.jobs i (.running k) hlen
    rw [hget] at hc
    simp [JobPhase.isRunning] at hc
    simp only [SemState.runningCount] at ih ⊢
    simp only [hc]
    have hone : 1 ≤ s.jobs.countP JobPhase.isRunning := by
      have h0 := List.boole_getElem_le_countP JobPhase.isRunning s.jobs i hlen
      rw [hget] at h0
      exact le_trans (le_of_eq (by simp [JobPhase.isRunning])) h0
    omega
  | release i hr =>
    rw [List.get?_eq_getElem?] at hr
    obtain ⟨hlen, hget⟩ := List.getElem?_eq_some.mp hr
    have hc := List.countP_set JobPhase.isRunning s.jobs i .finished hlen
    rw [hget] at hc
    simp [JobPhase.isRunning] at hc
    simp only [SemState.runningCount] at ih ⊢
    simp only [hc]
    have hone : 1 ≤ s.jobs.countP JobPhase.isRunning := by
      have h0 := List.boole_getElem_le_countP JobPhase.isRunning s.jobs i hlen
      rw [hget] at h0
      exact le_trans (le_of_eq (by simp [JobPhase.isRunning])) h0
    omega

/-- Permit-accounting invariant of the scheduler: in every reachable state,
free permits plus permit-holding jobs add up to the semaphore size `K`. -/
theorem sem_permits_invariant (K N : Nat) :
    ∀ st : SemState, SemReachable K N st → st.permits + st.runningCount = K := by
  intro st h
  induction h with
  | start =>
    simp [SemState.start, SemState.runningCount, List.countP_replicate, JobPhase.isRunning]
  | step hreach hstep ih =>
    exact SemStep.preserves_accounting K hstep ih

/-- C8: for `N` capture jobs submitted under a concurrency limiter of size
`K`, at no reachable instant of the cooperative schedule are more than `K`
jobs simultaneously holding a permit (executing their capture work). -/
theorem limiter_bounds_concurrency (K N : Nat) (s : SemState)
    (h : SemReachable K N s) : s.runningCount ≤ K := by
  have hinv := sem_permits_invariant K N s h
  omega

/-- Witness for C8 with `K = 2`, `N = 3`, at the state reached after job 0
acquires a permit: one job is running, which is within the bound. -/
theorem limiter_bounds_concurrency_witness :
    (SemState.mk 1 [JobPhase.running 5, JobPhase.queued, JobPhase.queued]).runningCount ≤ 2 :=
  limiter_bounds_concurrency 2 3 _
    (SemReachable.step SemReachable.start
      (SemStep.acquire (SemState.start 2 3) 0 5 rfl (by decide)))

end StockCharts
